import Mathlib

/-!
# Verification of the Velodyne raw-packet decoder

Shallow embedding of `src/velodyne_pointcloud/src/lib/rawdata.cc`
(`velodyne_rawdata::RawData`): the legacy 32/64-beam decode path
(`RawData::unpack`), the interleaved 16-beam path (`RawData::unpack_vlp16`),
the angle/range gates, and the setup/configuration logic.  Machine floats of
the source are modelled as exact rationals; the trigonometric caches are
abstract functions (both paths share the same tables, so the properties
proved here hold for every table).  Grids are total functions from
(column, row) to points; `none` positions model NaN.
-/

namespace Velodyne

/-- Modelled from the spec: packet-layout constant `BLOCKS_PER_PACKET`
(declared in `velodyne_pointcloud/rawdata.h`, which is not in `src/`);
the fixed number of firing blocks in one packet of the hardware layout. -/
def BLOCKS_PER_PACKET : Nat := 12

/-- Modelled from the spec: packet-layout constant `SCANS_PER_BLOCK`
(from `rawdata.h`, not in `src/`): beam readings per block. -/
def SCANS_PER_BLOCK : Nat := 32

/-- Modelled from the spec: `SCANS_PER_PACKET = SCANS_PER_BLOCK * BLOCKS_PER_PACKET`
(from `rawdata.h`, not in `src/`). -/
def SCANS_PER_PACKET : Nat := SCANS_PER_BLOCK * BLOCKS_PER_PACKET

/-- Modelled from the spec: rotation codes are hundredths of a degree in
[0, 36000) (`ROTATION_MAX_UNITS` in `rawdata.h`). -/
def ROTATION_MAX_UNITS : Nat := 36000

/-- Modelled from the spec: upper-bank block header marker (`UPPER_BANK`
in `rawdata.h`, not in `src/`). -/
def UPPER_BANK : Nat := 0xeeff

/-- Modelled from the spec: lower-bank block header marker (`LOWER_BANK`
in `rawdata.h`, not in `src/`). -/
def LOWER_BANK : Nat := 0xddff

/-- Modelled from the spec: distance resolution, 0.2 cm per unit
(`DISTANCE_RESOLUTION` in `rawdata.h`, not in `src/`). -/
def DISTANCE_RESOLUTION : ℚ := 2 / 1000

/-- Modelled from the spec: firings per block in the 16-beam layout
(`VLP16_FIRINGS_PER_BLOCK` in `rawdata.h`, not in `src/`). -/
def VLP16_FIRINGS_PER_BLOCK : Nat := 2

/-- Modelled from the spec: beams per firing in the 16-beam layout
(`VLP16_SCANS_PER_FIRING` in `rawdata.h`, not in `src/`). -/
def VLP16_SCANS_PER_FIRING : Nat := 16

/-- Modelled from the spec: per-beam firing time offset in µs
(`VLP16_DSR_TOFFSET` in `rawdata.h`, not in `src/`). -/
def VLP16_DSR_TOFFSET : ℚ := 2304 / 1000

/-- Modelled from the spec: per-firing time offset in µs
(`VLP16_FIRING_TOFFSET` in `rawdata.h`, not in `src/`). -/
def VLP16_FIRING_TOFFSET : ℚ := 55296 / 1000

/-- Modelled from the spec: duration of one block in µs
(`VLP16_BLOCK_TDURATION` in `rawdata.h`, not in `src/`). -/
def VLP16_BLOCK_TDURATION : ℚ := 110592 / 1000

/-- Per-beam calibration entry (`velodyne_pointcloud::LaserCorrection`),
with the trigonometric values of the correction angles pre-cached as in the
source. -/
structure LaserCorrection where
  cos_vert_correction : ℚ
  sin_vert_correction : ℚ
  cos_rot_correction : ℚ
  sin_rot_correction : ℚ
  horiz_offset_correction : ℚ
  vert_offset_correction : ℚ
  dist_correction : ℚ
  dist_correction_x : ℚ
  dist_correction_y : ℚ
  two_pt_correction_available : Bool
  min_intensity : ℚ
  max_intensity : ℚ
  focal_distance : ℚ
  focal_slope : ℚ
  laser_ring : Nat
deriving DecidableEq

/-- Calibration table: one correction entry per hardware beam id. -/
def Calibration := Nat → LaserCorrection

/-- Decoder configuration (`RawData::Config`), after `setParameters` has
converted the angle window to hardware rotation codes. -/
structure Config where
  min_range : ℚ
  max_range : ℚ
  min_angle : Int
  max_angle : Int
deriving DecidableEq

/-- An output point (`velodyne_rawdata::VPoint`): `pos = none` models the
NaN position of an unset cell. -/
structure VPoint where
  pos : Option (ℚ × ℚ × ℚ)
  intensity : ℚ
  ring : Int
deriving DecidableEq

/-- The default cell value: NaN position, zero intensity, ring sentinel -1
(`nanPoint` / `nan_point` in the source). -/
def nanPoint : VPoint := ⟨none, 0, -1⟩

/-- The output grid, indexed by (column, row). -/
def Grid := Nat × Nat → VPoint

/-- The all-default grid every scan starts from. -/
def initGrid : Grid := fun _ => nanPoint

/-- Point-wise grid update. -/
def Grid.set (g : Grid) (col row : Nat) (p : VPoint) : Grid :=
  fun cr => if cr = (col, row) then p else g cr

/-- One beam reading: the 16-bit little-endian distance code (already
assembled, `tmp.uint`) and the reflectivity byte. -/
structure RawReading where
  dist : Nat
  refl : Nat
deriving DecidableEq

/-- One firing block: header marker, rotation code, beam readings. -/
structure RawBlock where
  header : Nat
  rotation : Nat
  data : List RawReading
deriving DecidableEq

/-- One packet: its firing blocks plus the status byte
`raw->status[PACKET_STATUS_SIZE-2]` that signals dual-return mode. -/
structure RawPacket where
  blocks : List RawBlock
  statusByte : Nat
deriving DecidableEq

/-- The transform collaborator: `none` models the absence of a listener or
an empty target frame; a failing application models a thrown transform
exception. -/
def Transformer := (ℚ × ℚ × ℚ) → Option (ℚ × ℚ × ℚ)

/-- The azimuth gate condition exactly as written in both decode paths
(rawdata.cc lines 197-202 and 454-459). -/
def inAngleWindow (rot : Int) (min_angle max_angle : Int) : Bool :=
  (rot ≥ min_angle && rot ≤ max_angle && min_angle < max_angle) ||
    (min_angle > max_angle && (rot ≤ max_angle || rot ≥ min_angle))

/-- Modelled from the spec: `RawData::pointInRange` (declared in
`rawdata.h`, not in `src/`): true iff
`min_range ≤ distance ≤ max_range`. -/
def pointInRange (cfg : Config) (distance : ℚ) : Bool :=
  cfg.min_range ≤ distance && distance ≤ cfg.max_range

/-- The angle-window part of `RawData::setParameters` after the conversion
to hardware codes (rawdata.cc lines 74-79): a degenerate equal pair is
normalized to the full circle. -/
def setParametersAngles (min_angle max_angle : Int) : Int × Int :=
  if min_angle = max_angle then (0, 36000) else (min_angle, max_angle)

/-- C `round` (half away from zero) on exact rationals. -/
def cround (q : ℚ) : Int :=
  if q < 0 then -⌊-q + 1/2⌋ else ⌊q + 1/2⌋

/-- Geometric correction of the legacy path (rawdata.cc lines 203-283),
transcribed statement by statement; returns the ROS-frame coordinates
`(x_coord, y_coord, z_coord)` and the base corrected `distance` used by
the range gate. -/
def legacyGeometry (cosTable sinTable : Nat → ℚ) (corrections : LaserCorrection)
    (rotation : Nat) (tmp_uint : Nat) : ℚ × ℚ × ℚ × ℚ :=
  let distance : ℚ := (tmp_uint : ℚ) * DISTANCE_RESOLUTION + corrections.dist_correction
  let cos_vert_angle := corrections.cos_vert_correction
  let sin_vert_angle := corrections.sin_vert_correction
  let cos_rot_correction := corrections.cos_rot_correction
  let sin_rot_correction := corrections.sin_rot_correction
  let cos_rot_angle :=
    cosTable rotation * cos_rot_correction + sinTable rotation * sin_rot_correction
  let sin_rot_angle :=
    sinTable rotation * cos_rot_correction - cosTable rotation * sin_rot_correction
  let horiz_offset := corrections.horiz_offset_correction
  let vert_offset := corrections.vert_offset_correction
  let xy_distance := distance * cos_vert_angle - vert_offset * sin_vert_angle
  let xx := xy_distance * sin_rot_angle - horiz_offset * cos_rot_angle
  let yy := xy_distance * cos_rot_angle + horiz_offset * sin_rot_angle
  let xx := if xx < 0 then -xx else xx
  let yy := if yy < 0 then -yy else yy
  let distance_corr_x : ℚ :=
    if corrections.two_pt_correction_available then
      (corrections.dist_correction - corrections.dist_correction_x)
          * (xx - 24/10) / (2504/100 - 24/10)
        + corrections.dist_correction_x - corrections.dist_correction
    else 0
  let distance_corr_y : ℚ :=
    if corrections.two_pt_correction_available then
      (corrections.dist_correction - corrections.dist_correction_y)
          * (yy - 193/100) / (2504/100 - 193/100)
        + corrections.dist_correction_y - corrections.dist_correction
    else 0
  let distance_x := distance + distance_corr_x
  let xy_distance := distance_x * cos_vert_angle - vert_offset * sin_vert_angle
  let x := xy_distance * sin_rot_angle - horiz_offset * cos_rot_angle
  let distance_y := distance + distance_corr_y
  let xy_distance := distance_y * cos_vert_angle - vert_offset * sin_vert_angle
  let y := xy_distance * cos_rot_angle + horiz_offset * sin_rot_angle
  let z := distance_y * sin_vert_angle + vert_offset * cos_vert_angle
  let x_coord := y
  let y_coord := -x
  let z_coord := z
  (x_coord, y_coord, z_coord, distance)

/-- Intensity computation of the legacy path (rawdata.cc lines 285-299):
the normalized distance term divides the raw code by 65535 after a cast to
float (real division here). -/
def legacyIntensity (corrections : LaserCorrection) (tmp_uint raw_intensity : Nat) : ℚ :=
  let intensity : ℚ := (raw_intensity : ℚ)
  let focal_offset : ℚ := 256
    * (1 - corrections.focal_distance / 13100)
    * (1 - corrections.focal_distance / 13100)
  let focal_slope := corrections.focal_slope
  let intensity := intensity + focal_slope * |focal_offset - 256 *
    (1 - (tmp_uint : ℚ) / 65535) * (1 - (tmp_uint : ℚ) / 65535)|
  let intensity := if intensity < corrections.min_intensity then corrections.min_intensity
    else intensity
  let intensity := if intensity > corrections.max_intensity then corrections.max_intensity
    else intensity
  intensity

/-- Geometric correction of the interleaved path (rawdata.cc lines
462-541), transcribed statement by statement from its own copy of the
formulas; `rotation` is the corrected azimuth index used for the table
lookups. -/
def vlp16Geometry (cosTable sinTable : Nat → ℚ) (corrections : LaserCorrection)
    (rotation : Nat) (tmp_uint : Nat) : ℚ × ℚ × ℚ × ℚ :=
  let distance : ℚ := (tmp_uint : ℚ) * DISTANCE_RESOLUTION + corrections.dist_correction
  let cos_vert_angle := corrections.cos_vert_correction
  let sin_vert_angle := corrections.sin_vert_correction
  let cos_rot_correction := corrections.cos_rot_correction
  let sin_rot_correction := corrections.sin_rot_correction
  let cos_rot_angle :=
    cosTable rotation * cos_rot_correction + sinTable rotation * sin_rot_correction
  let sin_rot_angle :=
    sinTable rotation * cos_rot_correction - cosTable rotation * sin_rot_correction
  let horiz_offset := corrections.horiz_offset_correction
  let vert_offset := corrections.vert_offset_correction
  let xy_distance := distance * cos_vert_angle - vert_offset * sin_vert_angle
  let xx := xy_distance * sin_rot_angle - horiz_offset * cos_rot_angle
  let yy := xy_distance * cos_rot_angle + horiz_offset * sin_rot_angle
  let xx := if xx < 0 then -xx else xx
  let yy := if yy < 0 then -yy else yy
  let distance_corr_x : ℚ :=
    if corrections.two_pt_correction_available then
      (corrections.dist_correction - corrections.dist_correction_x)
          * (xx - 24/10) / (2504/100 - 24/10)
        + corrections.dist_correction_x - corrections.dist_correction
    else 0
  let distance_corr_y : ℚ :=
    if corrections.two_pt_correction_available then
      (corrections.dist_correction - corrections.dist_correction_y)
          * (yy - 193/100) / (2504/100 - 193/100)
        + corrections.dist_correction_y - corrections.dist_correction
    else 0
  let distance_x := distance + distance_corr_x
  let xy_distance := distance_x * cos_vert_angle - vert_offset * sin_vert_angle
  let x := xy_distance * sin_rot_angle - horiz_offset * cos_rot_angle
  let distance_y := distance + distance_corr_y
  let xy_distance := distance_y * cos_vert_angle - vert_offset * sin_vert_angle
  let y := xy_distance * cos_rot_angle + horiz_offset * sin_rot_angle
  let z := distance_y * sin_vert_angle + vert_offset * cos_vert_angle
  let x_coord := y
  let y_coord := -x
  let z_coord := z
  (x_coord, y_coord, z_coord, distance)

/-- Intensity computation of the interleaved path (rawdata.cc lines
543-556): `(1 - tmp.uint/65535)` is evaluated in C integer arithmetic
(no cast to float), so the quotient is the integer division
`tmp_uint / 65535`. -/
def vlp16Intensity (corrections : LaserCorrection) (tmp_uint raw_intensity : Nat) : ℚ :=
  let intensity : ℚ := (raw_intensity : ℚ)
  let focal_offset : ℚ := 256
    * (1 - corrections.focal_distance / 13100)
    * (1 - corrections.focal_distance / 13100)
  let focal_slope := corrections.focal_slope
  let q : Int := 1 - (tmp_uint / 65535 : Nat)
  let intensity := intensity + focal_slope * |focal_offset - ((256 * q * q : Int) : ℚ)|
  let intensity := if intensity < corrections.min_intensity then corrections.min_intensity
    else intensity
  let intensity := if intensity > corrections.max_intensity then corrections.max_intensity
    else intensity
  intensity

/-! ## Legacy (32/64-beam) decode path, `RawData::unpack` -/

/-- The mutable per-scan state of the legacy path: the running point
counter `n_points`, the output grid, and the ordered trace of the
(column, row) targets of the ring writes — a ghost observer recording
which cells `pc.at(col, row)` is invoked on. -/
structure LegacyState where
  n_points : Nat
  grid : Grid
  trace : List (Nat × Nat)

/-- Processing of one beam reading in the legacy path (rawdata.cc lines
180-354): angle gate, geometry, intensity, counter-based cell indexing,
unconditional ring write, range gate, intensity write, then direct or
transformed position write.  `j` is the position in the block,
`bank_origin` 0 or 32. -/
def legacyProcessReading (cfg : Config) (calibration : Calibration) (num_lasers : Nat)
    (cosTable sinTable : Nat → ℚ) (tf : Option Transformer)
    (bank_origin : Nat) (rotation : Nat) (j : Nat) (rd : RawReading)
    (st : LegacyState) : LegacyState :=
  let laser_number := j + bank_origin
  let corrections := calibration laser_number
  if inAngleWindow (rotation : Int) cfg.min_angle cfg.max_angle then
    let g := legacyGeometry cosTable sinTable corrections rotation rd.dist
    let x_coord := g.1
    let y_coord := g.2.1
    let z_coord := g.2.2.1
    let distance := g.2.2.2
    let intensity := legacyIntensity corrections rd.dist rd.refl
    let col := st.n_points / num_lasers
    let row := num_lasers - 1 - corrections.laser_ring
    let n' := st.n_points + 1
    let g1 := st.grid.set col row { st.grid (col, row) with ring := (corrections.laser_ring : Int) }
    let tr := st.trace ++ [(col, row)]
    let grid' :=
      if ¬ pointInRange cfg distance then g1
      else
        let g2 := g1.set col row { g1 (col, row) with intensity := intensity }
        match tf with
        | none =>
          g2.set col row { g2 (col, row) with pos := some (x_coord, y_coord, z_coord) }
        | some f =>
          match f (x_coord, y_coord, z_coord) with
          | none => g2
          | some p => g2.set col row { g2 (col, row) with pos := some p }
    { n_points := n', grid := grid', trace := tr }
  else st

/-- Processing of one block in the legacy path: bank selection from the
header byte, then the in-order fold over the block's beam readings. -/
def legacyProcessBlock (cfg : Config) (calibration : Calibration) (num_lasers : Nat)
    (cosTable sinTable : Nat → ℚ) (tf : Option Transformer)
    (b : RawBlock) (st : LegacyState) : LegacyState :=
  let bank_origin := if b.header = LOWER_BANK then 32 else 0
  b.data.enum.foldl
    (fun s jr => legacyProcessReading cfg calibration num_lasers cosTable sinTable tf
      bank_origin b.rotation jr.1 jr.2 s) st

/-- Processing of one packet in the legacy path: the in-order fold over
its blocks. -/
def legacyProcessPacket (cfg : Config) (calibration : Calibration) (num_lasers : Nat)
    (cosTable sinTable : Nat → ℚ) (tf : Option Transformer)
    (p : RawPacket) (st : LegacyState) : LegacyState :=
  p.blocks.foldl
    (fun s b => legacyProcessBlock cfg calibration num_lasers cosTable sinTable tf b s) st

/-- The whole legacy decode (`RawData::unpack` body after the grid is
pre-filled): the strict in-order fold over packets, blocks and readings
starting from counter 0 and the all-default grid. -/
def legacyUnpack (cfg : Config) (calibration : Calibration) (num_lasers : Nat)
    (cosTable sinTable : Nat → ℚ) (tf : Option Transformer)
    (packets : List RawPacket) : LegacyState :=
  packets.foldl
    (fun s p => legacyProcessPacket cfg calibration num_lasers cosTable sinTable tf p s)
    ⟨0, initGrid, []⟩

/-- Width of the legacy organized grid (rawdata.cc line 150). -/
def legacyWidth (numPackets num_lasers : Nat) : Nat :=
  numPackets * SCANS_PER_PACKET / num_lasers

/-- The in-order list of ring indices of the angle-gated readings of one
block (stateless spec-side companion of the legacy fold). -/
def gatedRingsBlock (cfg : Config) (calibration : Calibration) (b : RawBlock) : List Nat :=
  let bank_origin := if b.header = LOWER_BANK then 32 else 0
  if inAngleWindow (b.rotation : Int) cfg.min_angle cfg.max_angle then
    b.data.enum.map (fun jr => (calibration (jr.1 + bank_origin)).laser_ring)
  else []

/-- The in-order list of ring indices of the angle-gated readings of a
whole scan. -/
def gatedRings (cfg : Config) (calibration : Calibration) (packets : List RawPacket) :
    List Nat :=
  packets.flatMap (fun p => p.blocks.flatMap (gatedRingsBlock cfg calibration))

/-- The cells targeted by the legacy path for a given in-order list of
gated ring indices, starting at counter value `n₀`: the m-th gated
reading goes to `(col = (n₀+m) / L, row = L - 1 - ring)`. -/
def specTraceFrom (num_lasers n₀ : Nat) : List Nat → List (Nat × Nat)
  | [] => []
  | r :: rs => (n₀ / num_lasers, num_lasers - 1 - r) :: specTraceFrom num_lasers (n₀ + 1) rs

/-! ## Interleaved (16-beam) decode path, `RawData::unpack_vlp16` -/

/-- C cast `(uint8_t)` of a float intensity value (truncation toward
zero), as stored by the interleaved path. -/
def cuint8 (q : ℚ) : ℚ := ((if q < 0 then ⌈q⌉ else ⌊q⌋ : Int) : ℚ)

/-- The index step to the next block with a new azimuth
(rawdata.cc line 408): `1 + (int)dual_return`. -/
def i_diffOf (dual_return : Bool) : Nat := 1 + (if dual_return then 1 else 0)

/-- `raw->blocks[i]` of the interleaved path: the C loop always reads a
fixed number of blocks, so out-of-list indices yield a default block. -/
def blockAt (blocks : List RawBlock) (i : Nat) : RawBlock :=
  (blocks.get? i).getD ⟨0, 0, []⟩

/-- `raw->blocks[i].rotation`. -/
def rotationAt (blocks : List RawBlock) (i : Nat) : Nat := (blockAt blocks i).rotation

/-- The `k`-indexed beam reading of a block (`k` steps one reading per
`dsr` across both firings, so reading index = firing * 16 + dsr). -/
def readingAt (b : RawBlock) (i : Nat) : RawReading := (b.data.get? i).getD ⟨0, 0⟩

/-- The freshly computed azimuth difference of block `i`
(rawdata.cc lines 425-426): `(36000 + rotation(i+i_diff) - rotation(i)) % 36000`
in C `int` arithmetic. -/
def vlp16FreshDiff (blocks : List RawBlock) (i_diff block : Nat) : ℚ :=
  ((Int.tmod (36000 + (rotationAt blocks (block + i_diff) : Int)
      - (rotationAt blocks block : Int)) 36000 : Int) : ℚ)

/-- The azimuth difference the interleaved path uses for block `block`
(rawdata.cc lines 424-430): fresh when a lookahead block exists, otherwise
the cached `last_azimuth_diff`. -/
def vlp16DiffUsed (blocks : List RawBlock) (i_diff block : Nat) (last_azimuth_diff : ℚ) : ℚ :=
  if block < BLOCKS_PER_PACKET - i_diff then vlp16FreshDiff blocks i_diff block
  else last_azimuth_diff

/-- The value of `last_azimuth_diff` after block `block` has been
processed. -/
def vlp16LastAfter (blocks : List RawBlock) (i_diff block : Nat) (last_azimuth_diff : ℚ) : ℚ :=
  if block < BLOCKS_PER_PACKET - i_diff then vlp16FreshDiff blocks i_diff block
  else last_azimuth_diff

/-- The corrected azimuth of beam `dsr` in firing `firing`
(rawdata.cc lines 436, 447-448):
`((int)round(azimuth + azimuth_diff * t_beam / VLP16_BLOCK_TDURATION)) % 36000`
with `t_beam = dsr*VLP16_DSR_TOFFSET + firing*VLP16_FIRING_TOFFSET`. -/
def vlp16AzimuthCorrected (azimuth : Nat) (azimuth_diff : ℚ) (firing dsr : Nat) : Int :=
  let t_beam : ℚ := (dsr : ℚ) * VLP16_DSR_TOFFSET + (firing : ℚ) * VLP16_FIRING_TOFFSET
  let azimuth_corrected_f : ℚ := (azimuth : ℚ) + azimuth_diff * t_beam / VLP16_BLOCK_TDURATION
  Int.tmod (cround azimuth_corrected_f) 36000

/-- Column index under dual return (rawdata.cc lines 568-571). -/
def vlp16ColDual (packet block firing : Nat) : Nat :=
  packet * BLOCKS_PER_PACKET * VLP16_FIRINGS_PER_BLOCK
    + block / 2 * 2 * VLP16_FIRINGS_PER_BLOCK
    + firing * 2
    + block % 2

/-- Column index under single return (rawdata.cc lines 573-575). -/
def vlp16ColSingle (packet block firing : Nat) : Nat :=
  packet * BLOCKS_PER_PACKET * VLP16_FIRINGS_PER_BLOCK
    + block * VLP16_FIRINGS_PER_BLOCK
    + firing

/-- Width of the interleaved organized grid (rawdata.cc line 376). -/
def vlp16Width (numPackets : Nat) : Nat :=
  numPackets * BLOCKS_PER_PACKET * VLP16_FIRINGS_PER_BLOCK

/-- Processing of one beam reading in the interleaved path (rawdata.cc
lines 434-613) acting on the grid and the ghost trace of cells written:
corrected azimuth, angle gate, geometry and intensity, whole-cell default
write carrying the ring, range gate, then direct or transformed position
and intensity write. -/
def vlp16ProcessReading (cfg : Config) (calibration : Calibration) (num_lasers : Nat)
    (cosTable sinTable : Nat → ℚ) (tf : Option Transformer) (dual_return : Bool)
    (packet block firing dsr : Nat) (azimuth : Nat) (azimuth_diff : ℚ)
    (rd : RawReading) (gt : Grid × List (Nat × Nat)) : Grid × List (Nat × Nat) :=
  let corrections := calibration dsr
  let azimuth_corrected := vlp16AzimuthCorrected azimuth azimuth_diff firing dsr
  if inAngleWindow azimuth_corrected cfg.min_angle cfg.max_angle then
    let geo := vlp16Geometry cosTable sinTable corrections azimuth_corrected.toNat rd.dist
    let x_coord := geo.1
    let y_coord := geo.2.1
    let z_coord := geo.2.2.1
    let distance := geo.2.2.2
    let intensity := vlp16Intensity corrections rd.dist rd.refl
    let point : VPoint := { pos := none, intensity := 0, ring := (corrections.laser_ring : Int) }
    let row := num_lasers - 1 - corrections.laser_ring
    let col := if dual_return then vlp16ColDual packet block firing
      else vlp16ColSingle packet block firing
    let g1 := gt.1.set col row point
    let tr := gt.2 ++ [(col, row)]
    let grid' :=
      if ¬ pointInRange cfg distance then g1
      else
        match tf with
        | none =>
          g1.set col row { g1 (col, row) with
            pos := some (x_coord, y_coord, z_coord), intensity := cuint8 intensity }
        | some f =>
          match f (x_coord, y_coord, z_coord) with
          | none => g1
          | some p =>
            g1.set col row { g1 (col, row) with
              pos := some p, intensity := cuint8 intensity }
    (grid', tr)
  else gt

/-- Per-scan state of the interleaved path: the cached azimuth difference,
the grid, and the ghost trace of cells written. -/
structure Vlp16State where
  last_azimuth_diff : ℚ
  grid : Grid
  trace : List (Nat × Nat)

/-- Processing of one (good-header) block of the interleaved path:
azimuth-difference selection and caching, then the in-order fold over
firings and beams. -/
def vlp16ProcessBlockBody (cfg : Config) (calibration : Calibration) (num_lasers : Nat)
    (cosTable sinTable : Nat → ℚ) (tf : Option Transformer) (dual_return : Bool)
    (packet : Nat) (blocks : List RawBlock) (block : Nat) (st : Vlp16State) : Vlp16State :=
  let i_diff := i_diffOf dual_return
  let b := blockAt blocks block
  let azimuth := b.rotation
  let azimuth_diff := vlp16DiffUsed blocks i_diff block st.last_azimuth_diff
  let gt := (List.range VLP16_FIRINGS_PER_BLOCK).foldl (fun gt firing =>
      (List.range VLP16_SCANS_PER_FIRING).foldl (fun gt dsr =>
        vlp16ProcessReading cfg calibration num_lasers cosTable sinTable tf dual_return
          packet block firing dsr azimuth azimuth_diff
          (readingAt b (firing * VLP16_SCANS_PER_FIRING + dsr)) gt) gt)
    (st.grid, st.trace)
  { last_azimuth_diff := vlp16LastAfter blocks i_diff block st.last_azimuth_diff,
    grid := gt.1, trace := gt.2 }

/-- The block loop of one packet with the bad-header abort (rawdata.cc
lines 411-420): `.error` carries the state at the moment of the abort,
which ends the whole scan (`return`). -/
def vlp16Blocks (cfg : Config) (calibration : Calibration) (num_lasers : Nat)
    (cosTable sinTable : Nat → ℚ) (tf : Option Transformer) (dual_return : Bool)
    (packet : Nat) (blocks : List RawBlock) :
    Nat → Nat → Vlp16State → Except Vlp16State Vlp16State
  | _, 0, st => .ok st
  | block, cnt + 1, st =>
    if (blockAt blocks block).header ≠ UPPER_BANK then .error st
    else vlp16Blocks cfg calibration num_lasers cosTable sinTable tf dual_return
      packet blocks (block + 1) cnt
      (vlp16ProcessBlockBody cfg calibration num_lasers cosTable sinTable tf dual_return
        packet blocks block st)

/-- The packet loop of the interleaved path: dual-return detection from
the status byte (rawdata.cc line 403), the block loop, and the early end
of the scan when a block aborts. -/
def vlp16Packets (cfg : Config) (calibration : Calibration) (num_lasers : Nat)
    (cosTable sinTable : Nat → ℚ) (tf : Option Transformer) :
    Nat → List RawPacket → Vlp16State → Vlp16State
  | _, [], st => st
  | packet, p :: rest, st =>
    let dual_return := p.statusByte = 0x39
    match vlp16Blocks cfg calibration num_lasers cosTable sinTable tf dual_return
        packet p.blocks 0 BLOCKS_PER_PACKET st with
    | .error st' => st'
    | .ok st' => vlp16Packets cfg calibration num_lasers cosTable sinTable tf
        (packet + 1) rest st'

/-- The whole interleaved decode (`RawData::unpack_vlp16` body after the
grid is pre-filled), starting from cached difference 0 and the
all-default grid. -/
def vlp16Unpack (cfg : Config) (calibration : Calibration) (num_lasers : Nat)
    (cosTable sinTable : Nat → ℚ) (tf : Option Transformer)
    (packets : List RawPacket) : Vlp16State :=
  vlp16Packets cfg calibration num_lasers cosTable sinTable tf 0 packets ⟨0, initGrid, []⟩

/-! ## Setup and path dispatch -/

/-- The fallback calibration file substituted when no `calibration`
parameter is given (rawdata.cc lines 101-105). -/
def defaultCalibrationFile : String := "velodyne_pointcloud/params/64e_utexas.yaml"

/-- `RawData::setup` (rawdata.cc lines 96-131), with the parameter server
modelled as an optional calibration-file name and the calibration loader
as a predicate telling whether reading a file leaves the calibration
initialized.  Returns the status code and the file that was read. -/
def setup (calibrationParam : Option String) (readInitializes : String → Bool) :
    Int × String :=
  let calibrationFile := match calibrationParam with
    | some f => f
    | none => defaultCalibrationFile
  if readInitializes calibrationFile then (0, calibrationFile) else (-1, calibrationFile)

/-- The path dispatch at the top of `RawData::unpack` (rawdata.cc lines
140-144): 16 lasers selects the interleaved path, any other count falls
through to the legacy path; there is no failure branch. -/
def unpackSelectsVlp16 (num_lasers : Nat) : Bool := num_lasers = 16

/-- A concrete calibration entry used by counterexamples and witnesses:
identity rotation/vertical trig values, focal distance 0, focal slope 1,
intensity clamp [0, 255]. -/
def c1Calibration : LaserCorrection :=
  { cos_vert_correction := 1, sin_vert_correction := 0
    cos_rot_correction := 1, sin_rot_correction := 0
    horiz_offset_correction := 0, vert_offset_correction := 0
    dist_correction := 0, dist_correction_x := 0, dist_correction_y := 0
    two_pt_correction_available := false
    min_intensity := 0, max_intensity := 255
    focal_distance := 0, focal_slope := 1
    laser_ring := 0 }

/-- Like `c1Calibration` but with focal slope 0, so the computed
intensity equals the raw reflectivity byte. -/
def c8Calibration : LaserCorrection :=
  { c1Calibration with focal_slope := 0 }

/-- The block loop of one packet with no header check: the grid/trace
effect of the blocks a scan processes before an abort (companion of
`vlp16Blocks` for stating the partial result of an aborted scan). -/
def vlp16GoodBlocks (cfg : Config) (calibration : Calibration) (num_lasers : Nat)
    (cosTable sinTable : Nat → ℚ) (tf : Option Transformer) (dual_return : Bool)
    (packet : Nat) (blocks : List RawBlock) :
    Nat → Nat → Vlp16State → Vlp16State
  | _, 0, st => st
  | block, cnt + 1, st =>
    vlp16GoodBlocks cfg calibration num_lasers cosTable sinTable tf dual_return
      packet blocks (block + 1) cnt
      (vlp16ProcessBlockBody cfg calibration num_lasers cosTable sinTable tf dual_return
        packet blocks block st)

/-- The evolution of `last_azimuth_diff` alone across the blocks
`block, block+1, ..., block+cnt-1` (projection of the block loop onto the
cached azimuth difference). -/
def vlp16LastSeg (blocks : List RawBlock) (i_diff : Nat) : Nat → Nat → ℚ → ℚ
  | _, 0, last_azimuth_diff => last_azimuth_diff
  | block, cnt + 1, last_azimuth_diff =>
    vlp16LastSeg blocks i_diff (block + 1) cnt
      (vlp16LastAfter blocks i_diff block last_azimuth_diff)

/-- A well-formed block of the 16-beam layout with the expected header. -/
def c7GoodBlock : RawBlock := ⟨UPPER_BANK, 0, []⟩

/-- A mangled block whose header is not the upper-bank marker. -/
def c7BadBlock : RawBlock := ⟨0, 0, []⟩

/-- A packet whose second block carries a mangled header. -/
def c7Packet : RawPacket := ⟨[c7GoodBlock, c7BadBlock], 0⟩

/-- Calibration for the out-of-bounds column scenario: a 40-beam device
whose rings are the identity permutation of [0, 40). -/
def c10Calibration : Calibration := fun i => { c1Calibration with laser_ring := i % 40 }

/-- A full legacy packet: 12 blocks of 32 readings each, all at rotation
code 0. -/
def c10Packet : RawPacket := ⟨List.replicate 12 ⟨0, 0, List.replicate 32 ⟨0, 0⟩⟩, 0⟩

/-- A one-packet scan for the out-of-bounds column scenario. -/
def c10Scan : List RawPacket := [c10Packet]

/-! ## Claim theorems -/

/-! ### Helper lemmas for the legacy fold (claims C2, C10) -/

theorem legacyProcessReading_gated (cfg : Config) (cal : Calibration) (L : Nat)
    (cT sT : Nat → ℚ) (tf : Option Transformer) (bank rot j : Nat) (rd : RawReading)
    (st : LegacyState)
    (h : inAngleWindow (rot : Int) cfg.min_angle cfg.max_angle = true) :
    (legacyProcessReading cfg cal L cT sT tf bank rot j rd st).n_points = st.n_points + 1
    ∧ (legacyProcessReading cfg cal L cT sT tf bank rot j rd st).trace
      = st.trace ++ [(st.n_points / L, L - 1 - (cal (j + bank)).laser_ring)] := by
  simp [legacyProcessReading, h]

theorem legacyProcessReading_ungated (cfg : Config) (cal : Calibration) (L : Nat)
    (cT sT : Nat → ℚ) (tf : Option Transformer) (bank rot j : Nat) (rd : RawReading)
    (st : LegacyState)
    (h : inAngleWindow (rot : Int) cfg.min_angle cfg.max_angle = false) :
    legacyProcessReading cfg cal L cT sT tf bank rot j rd st = st := by
  simp [legacyProcessReading, h]

theorem legacy_readings_fold (cfg : Config) (cal : Calibration) (L : Nat)
    (cT sT : Nat → ℚ) (tf : Option Transformer) (bank rot : Nat)
    (h : inAngleWindow (rot : Int) cfg.min_angle cfg.max_angle = true)
    (l : List (Nat × RawReading)) :
    ∀ st : LegacyState,
      ((l.foldl (fun s jr => legacyProcessReading cfg cal L cT sT tf bank rot jr.1 jr.2 s)
        st).n_points = st.n_points + l.length)
      ∧ (l.foldl (fun s jr => legacyProcessReading cfg cal L cT sT tf bank rot jr.1 jr.2 s)
        st).trace
        = st.trace ++ specTraceFrom L st.n_points
            (l.map fun jr => (cal (jr.1 + bank)).laser_ring) := by
  induction l with
  | nil => intro st; simp [specTraceFrom]
  | cons jr l ih =>
    intro st
    obtain ⟨hn, ht⟩ := legacyProcessReading_gated cfg cal L cT sT tf bank rot jr.1 jr.2 st h
    obtain ⟨ihn, iht⟩ := ih (legacyProcessReading cfg cal L cT sT tf bank rot jr.1 jr.2 st)
    refine ⟨?_, ?_⟩
    · rw [List.foldl_cons, ihn, hn]
      simp only [List.length_cons]
      omega
    · rw [List.foldl_cons, iht, ht, hn]
      simp [specTraceFrom, List.append_assoc]

theorem legacy_readings_fold_ungated (cfg : Config) (cal : Calibration) (L : Nat)
    (cT sT : Nat → ℚ) (tf : Option Transformer) (bank rot : Nat)
    (h : inAngleWindow (rot : Int) cfg.min_angle cfg.max_angle = false)
    (l : List (Nat × RawReading)) :
    ∀ st : LegacyState,
      l.foldl (fun s jr => legacyProcessReading cfg cal L cT sT tf bank rot jr.1 jr.2 s) st
        = st := by
  induction l with
  | nil => intro st; rfl
  | cons jr l ih =>
    intro st
    rw [List.foldl_cons, legacyProcessReading_ungated cfg cal L cT sT tf bank rot jr.1 jr.2 st h]
    exact ih st

theorem legacyProcessBlock_spec (cfg : Config) (cal : Calibration) (L : Nat)
    (cT sT : Nat → ℚ) (tf : Option Transformer) (b : RawBlock) (st : LegacyState) :
    (legacyProcessBlock cfg cal L cT sT tf b st).n_points
      = st.n_points + (gatedRingsBlock cfg cal b).length
    ∧ (legacyProcessBlock cfg cal L cT sT tf b st).trace
      = st.trace ++ specTraceFrom L st.n_points (gatedRingsBlock cfg cal b) := by
  by_cases h : inAngleWindow (b.rotation : Int) cfg.min_angle cfg.max_angle = true
  · have hf := legacy_readings_fold cfg cal L cT sT tf
      (if b.header = LOWER_BANK then 32 else 0) b.rotation h b.data.enum st
    simp only [legacyProcessBlock, gatedRingsBlock, h, if_true]
    simpa using hf
  · rw [Bool.not_eq_true] at h
    have hf := legacy_readings_fold_ungated cfg cal L cT sT tf
      (if b.header = LOWER_BANK then 32 else 0) b.rotation h b.data.enum st
    simp only [legacyProcessBlock, gatedRingsBlock, h]
    simp [hf, specTraceFrom]

theorem specTraceFrom_append (L : Nat) :
    ∀ (xs ys : List Nat) (n₀ : Nat),
      specTraceFrom L n₀ (xs ++ ys)
        = specTraceFrom L n₀ xs ++ specTraceFrom L (n₀ + xs.length) ys := by
  intro xs
  induction xs with
  | nil => intro ys n₀; simp [specTraceFrom]
  | cons x xs ih =>
    intro ys n₀
    simp only [List.cons_append, specTraceFrom, List.length_cons, List.append_eq]
    rw [ih ys (n₀ + 1)]
    have h : n₀ + 1 + xs.length = n₀ + (xs.length + 1) := by omega
    rw [h]

theorem legacy_blocks_fold (cfg : Config) (cal : Calibration) (L : Nat)
    (cT sT : Nat → ℚ) (tf : Option Transformer) (bs : List RawBlock) :
    ∀ st : LegacyState,
      ((bs.foldl (fun s b => legacyProcessBlock cfg cal L cT sT tf b s) st).n_points
        = st.n_points + (bs.flatMap (gatedRingsBlock cfg cal)).length)
      ∧ (bs.foldl (fun s b => legacyProcessBlock cfg cal L cT sT tf b s) st).trace
        = st.trace ++ specTraceFrom L st.n_points (bs.flatMap (gatedRingsBlock cfg cal)) := by
  induction bs with
  | nil => intro st; simp [specTraceFrom]
  | cons b bs ih =>
    intro st
    obtain ⟨hn, ht⟩ := legacyProcessBlock_spec cfg cal L cT sT tf b st
    obtain ⟨ihn, iht⟩ := ih (legacyProcessBlock cfg cal L cT sT tf b st)
    refine ⟨?_, ?_⟩
    · rw [List.foldl_cons, ihn, hn]
      simp [List.flatMap_cons]
      omega
    · rw [List.foldl_cons, iht, ht, hn]
      simp only [List.flatMap_cons, specTraceFrom_append, List.append_assoc]

theorem legacy_packets_fold (cfg : Config) (cal : Calibration) (L : Nat)
    (cT sT : Nat → ℚ) (tf : Option Transformer) (ps : List RawPacket) :
    ∀ st : LegacyState,
      ((ps.foldl (fun s p => legacyProcessPacket cfg cal L cT sT tf p s) st).n_points
        = st.n_points + (gatedRings cfg cal ps).length)
      ∧ (ps.foldl (fun s p => legacyProcessPacket cfg cal L cT sT tf p s) st).trace
        = st.trace ++ specTraceFrom L st.n_points (gatedRings cfg cal ps) := by
  induction ps with
  | nil => intro st; simp [gatedRings, specTraceFrom]
  | cons p ps ih =>
    intro st
    obtain ⟨hn, ht⟩ := legacy_blocks_fold cfg cal L cT sT tf p.blocks st
    obtain ⟨ihn, iht⟩ := ih (legacyProcessPacket cfg cal L cT sT tf p st)
    refine ⟨?_, ?_⟩
    · rw [List.foldl_cons, ihn]
      show (legacyProcessPacket cfg cal L cT sT tf p st).n_points + _ = _
      rw [show legacyProcessPacket cfg cal L cT sT tf p st
          = p.blocks.foldl (fun s b => legacyProcessBlock cfg cal L cT sT tf b s) st from rfl,
        hn]
      simp [gatedRings, List.flatMap_cons]
      omega
    · rw [List.foldl_cons, iht]
      rw [show legacyProcessPacket cfg cal L cT sT tf p st
          = p.blocks.foldl (fun s b => legacyProcessBlock cfg cal L cT sT tf b s) st from rfl,
        ht, hn]
      simp only [gatedRings, List.flatMap_cons, specTraceFrom_append, List.append_assoc]

theorem Grid.set_same (g : Grid) (c r : Nat) (p : VPoint) : (g.set c r p) (c, r) = p := by
  simp [Grid.set]

theorem Grid.set_ne (g : Grid) (c r : Nat) (p : VPoint) (cr : Nat × Nat)
    (h : cr ≠ (c, r)) : (g.set c r p) cr = g cr := by
  simp [Grid.set, h]

theorem legacyGeometry_distance (cT sT : Nat → ℚ) (c : LaserCorrection) (rot d : Nat) :
    (legacyGeometry cT sT c rot d).2.2.2 = (d : ℚ) * DISTANCE_RESOLUTION + c.dist_correction :=
  rfl

theorem vlp16Geometry_distance (cT sT : Nat → ℚ) (c : LaserCorrection) (rot d : Nat) :
    (vlp16Geometry cT sT c rot d).2.2.2 = (d : ℚ) * DISTANCE_RESOLUTION + c.dist_correction :=
  rfl

/-- C2: the legacy decode is the strict in-order fold over packets,
blocks and beam readings: the final counter equals the number of readings
whose block rotation passes the angle gate, the cells targeted are
exactly `(col = m / beam_count, row = beam_count - 1 - ring)` for the
m-th gated reading in order; and each gated reading advances the counter
by one and targets the cell computed from the counter value before the
advance, with no range-gate condition on either. -/
theorem C2_legacy_counter_fold :
    (∀ (cfg : Config) (cal : Calibration) (L : Nat) (cT sT : Nat → ℚ)
      (tf : Option Transformer) (packets : List RawPacket),
      (legacyUnpack cfg cal L cT sT tf packets).n_points
        = (gatedRings cfg cal packets).length
      ∧ (legacyUnpack cfg cal L cT sT tf packets).trace
        = specTraceFrom L 0 (gatedRings cfg cal packets))
    ∧ (∀ (cfg : Config) (cal : Calibration) (L : Nat) (cT sT : Nat → ℚ)
      (tf : Option Transformer) (bank rot j : Nat) (rd : RawReading) (st : LegacyState),
      inAngleWindow (rot : Int) cfg.min_angle cfg.max_angle = true →
      (legacyProcessReading cfg cal L cT sT tf bank rot j rd st).n_points = st.n_points + 1
      ∧ (legacyProcessReading cfg cal L cT sT tf bank rot j rd st).trace
        = st.trace ++ [(st.n_points / L, L - 1 - (cal (j + bank)).laser_ring)]) := by
  refine ⟨fun cfg cal L cT sT tf packets => ?_, ?_⟩
  · obtain ⟨hn, ht⟩ := legacy_packets_fold cfg cal L cT sT tf packets ⟨0, initGrid, []⟩
    exact ⟨by simpa using hn, by simpa using ht⟩
  · intro cfg cal L cT sT tf bank rot j rd st h
    exact legacyProcessReading_gated cfg cal L cT sT tf bank rot j rd st h

/-- Witness for C2's per-reading clause: under the full-circle window, a
reading at rotation 0 advances the counter from 0 to 1 and its ring write
targets cell (0, 63). -/
theorem C2_legacy_counter_fold_witness :
    inAngleWindow (0 : Int) 0 36000 = true
    ∧ ((legacyProcessReading ⟨0, 0, 0, 36000⟩ (fun _ => c1Calibration) 64
        (fun _ => 1) (fun _ => 0) none 0 0 0 ⟨0, 0⟩ ⟨0, initGrid, []⟩).n_points = 0 + 1
      ∧ (legacyProcessReading ⟨0, 0, 0, 36000⟩ (fun _ => c1Calibration) 64
        (fun _ => 1) (fun _ => 0) none 0 0 0 ⟨0, 0⟩ ⟨0, initGrid, []⟩).trace
        = [] ++ [(0 / 64, 64 - 1 - ((fun _ => c1Calibration) (0 + 0) :
            LaserCorrection).laser_ring)]) :=
  ⟨by decide,
   C2_legacy_counter_fold.2 ⟨0, 0, 0, 36000⟩ (fun _ => c1Calibration) 64
     (fun _ => 1) (fun _ => 0) none 0 0 0 ⟨0, 0⟩ ⟨0, initGrid, []⟩ (by decide)⟩

/-- C1: the two decode paths compute identical corrected coordinates for
every calibration, rotation code and distance code; but their intensity
computations diverge: the legacy path divides the raw distance code by
65535 after a cast to float, while the interleaved path evaluates
`tmp.uint/65535` in integer arithmetic, so at distance code 1000 with
focal slope 1 and focal distance 0 the legacy intensity differs from the
interleaved intensity. -/
theorem C1_correction_model_divergence :
    (∀ (cosTable sinTable : Nat → ℚ) (c : LaserCorrection) (rot d : Nat),
      legacyGeometry cosTable sinTable c rot d = vlp16Geometry cosTable sinTable c rot d)
    ∧ legacyIntensity c1Calibration 1000 100 ≠ vlp16Intensity c1Calibration 1000 100 := by
  refine ⟨fun _ _ _ _ _ => rfl, ?_⟩
  simp only [legacyIntensity, vlp16Intensity, c1Calibration]
  norm_num
  rw [abs_of_nonneg (by norm_num)]
  norm_num

/-- C3: the angle gate of both decode paths is the window predicate of
the spec in both the plain and the wraparound orientation;
`setParameters` normalizes a degenerate equal pair to `(0, 36000)`, and
under the normalized window every rotation code in [0, 36000) passes. -/
theorem C3_angle_gate_and_normalization :
    (∀ code mn mx : Int, mn < mx →
      (inAngleWindow code mn mx = true ↔ mn ≤ code ∧ code ≤ mx))
    ∧ (∀ code mn mx : Int, mn > mx →
      (inAngleWindow code mn mx = true ↔ code ≥ mn ∨ code ≤ mx))
    ∧ (∀ mn mx : Int, mn = mx → setParametersAngles mn mx = (0, 36000))
    ∧ (∀ code : Int, 0 ≤ code → code < 36000 → inAngleWindow code 0 36000 = true) := by
  refine ⟨?_, ?_, ?_, ?_⟩
  · intro code mn mx h
    simp only [inAngleWindow, Bool.or_eq_true, Bool.and_eq_true, decide_eq_true_eq]
    omega
  · intro code mn mx h
    simp only [inAngleWindow, Bool.or_eq_true, Bool.and_eq_true, decide_eq_true_eq]
    omega
  · intro mn mx h
    simp [setParametersAngles, h]
  · intro code h1 h2
    simp only [inAngleWindow, Bool.or_eq_true, Bool.and_eq_true, decide_eq_true_eq]
    omega

/-- Witness for C3 at the spec's own test points: code 150 in window
[100, 200]; code 100 in the wraparound window [35900, 200]; the
degenerate window (100, 100) normalized to (0, 36000); and code 150
passing the normalized full-circle window. -/
theorem C3_angle_gate_and_normalization_witness :
    inAngleWindow 150 100 200 = true
    ∧ inAngleWindow 100 35900 200 = true
    ∧ setParametersAngles 100 100 = (0, 36000)
    ∧ inAngleWindow 150 0 36000 = true :=
  ⟨(C3_angle_gate_and_normalization.1 150 100 200 (by decide)).mpr (by decide),
   (C3_angle_gate_and_normalization.2.1 100 35900 200 (by decide)).mpr (by decide),
   C3_angle_gate_and_normalization.2.2.1 100 100 rfl,
   C3_angle_gate_and_normalization.2.2.2 150 (by decide) (by decide)⟩

/-- C5: under dual return the two return channels of a block pair land on
the adjacent columns `base + 0` and `base + 1` (never the same column),
and under single return the column map is injective on
(packet, block < 12, firing < 2). -/
theorem C5_column_indexing :
    (∀ p b f, vlp16ColDual p (2 * b) f
        = p * BLOCKS_PER_PACKET * VLP16_FIRINGS_PER_BLOCK
          + b * 2 * VLP16_FIRINGS_PER_BLOCK + f * 2
      ∧ vlp16ColDual p (2 * b + 1) f
        = p * BLOCKS_PER_PACKET * VLP16_FIRINGS_PER_BLOCK
          + b * 2 * VLP16_FIRINGS_PER_BLOCK + f * 2 + 1)
    ∧ (∀ p b f, vlp16ColDual p (2 * b) f ≠ vlp16ColDual p (2 * b + 1) f)
    ∧ (∀ p₁ b₁ f₁ p₂ b₂ f₂,
        b₁ < BLOCKS_PER_PACKET → f₁ < VLP16_FIRINGS_PER_BLOCK →
        b₂ < BLOCKS_PER_PACKET → f₂ < VLP16_FIRINGS_PER_BLOCK →
        vlp16ColSingle p₁ b₁ f₁ = vlp16ColSingle p₂ b₂ f₂ →
        p₁ = p₂ ∧ b₁ = b₂ ∧ f₁ = f₂) := by
  refine ⟨?_, ?_, ?_⟩
  · intro p b f
    constructor <;>
      · simp only [vlp16ColDual, BLOCKS_PER_PACKET, VLP16_FIRINGS_PER_BLOCK]
        omega
  · intro p b f
    simp only [vlp16ColDual, BLOCKS_PER_PACKET, VLP16_FIRINGS_PER_BLOCK]
    omega
  · intro p₁ b₁ f₁ p₂ b₂ f₂ hb₁ hf₁ hb₂ hf₂ h
    simp only [vlp16ColSingle, BLOCKS_PER_PACKET, VLP16_FIRINGS_PER_BLOCK] at *
    omega

/-- Witness for C5: packet 3, block pair (4, 5), firing 1 lands on
columns 90 and 91; and a coincidence of single-return columns at in-range
indices forces equal triples. -/
theorem C5_column_indexing_witness :
    (vlp16ColDual 3 (2 * 2) 1 = 3 * BLOCKS_PER_PACKET * VLP16_FIRINGS_PER_BLOCK
        + 2 * 2 * VLP16_FIRINGS_PER_BLOCK + 1 * 2)
    ∧ vlp16ColDual 3 (2 * 2) 1 ≠ vlp16ColDual 3 (2 * 2 + 1) 1
    ∧ (vlp16ColSingle 1 5 1 = vlp16ColSingle 1 5 1 → 1 = 1 ∧ 5 = 5 ∧ 1 = 1) :=
  ⟨(C5_column_indexing.1 3 2 1).1,
   C5_column_indexing.2.1 3 2 1,
   fun h => C5_column_indexing.2.2 1 5 1 1 5 1 (by decide) (by decide) (by decide) (by decide) h⟩

/-- C6: in both paths, a reading that passes the angle gate but whose
corrected distance fails the range gate only records the beam's ring at
its target cell: in the legacy path the cell keeps all its other fields
(so a default cell becomes the default point with the ring set), every
other cell is untouched; in the interleaved path the cell becomes exactly
the default point with the ring set and every other cell is untouched. -/
theorem C6_range_gate_ring_only :
    (∀ (cfg : Config) (cal : Calibration) (L : Nat) (cT sT : Nat → ℚ)
      (tf : Option Transformer) (bank rot j : Nat) (rd : RawReading) (st : LegacyState),
      inAngleWindow (rot : Int) cfg.min_angle cfg.max_angle = true →
      pointInRange cfg ((rd.dist : ℚ) * DISTANCE_RESOLUTION
        + (cal (j + bank)).dist_correction) = false →
      ((legacyProcessReading cfg cal L cT sT tf bank rot j rd st).grid
          (st.n_points / L, L - 1 - (cal (j + bank)).laser_ring)
        = { st.grid (st.n_points / L, L - 1 - (cal (j + bank)).laser_ring) with
            ring := ((cal (j + bank)).laser_ring : Int) })
      ∧ (∀ cr, cr ≠ (st.n_points / L, L - 1 - (cal (j + bank)).laser_ring) →
          (legacyProcessReading cfg cal L cT sT tf bank rot j rd st).grid cr = st.grid cr)
      ∧ (st.grid (st.n_points / L, L - 1 - (cal (j + bank)).laser_ring) = nanPoint →
          (legacyProcessReading cfg cal L cT sT tf bank rot j rd st).grid
            (st.n_points / L, L - 1 - (cal (j + bank)).laser_ring)
          = { pos := none, intensity := 0, ring := ((cal (j + bank)).laser_ring : Int) }))
    ∧ (∀ (cfg : Config) (cal : Calibration) (L : Nat) (cT sT : Nat → ℚ)
      (tf : Option Transformer) (dual : Bool) (p blk f dsr az : Nat) (diff : ℚ)
      (rd : RawReading) (gt : Grid × List (Nat × Nat)),
      inAngleWindow (vlp16AzimuthCorrected az diff f dsr) cfg.min_angle cfg.max_angle = true →
      pointInRange cfg ((rd.dist : ℚ) * DISTANCE_RESOLUTION
        + (cal dsr).dist_correction) = false →
      ((vlp16ProcessReading cfg cal L cT sT tf dual p blk f dsr az diff rd gt).1
          ((if dual then vlp16ColDual p blk f else vlp16ColSingle p blk f),
            L - 1 - (cal dsr).laser_ring)
        = { pos := none, intensity := 0, ring := ((cal dsr).laser_ring : Int) })
      ∧ (∀ cr, cr ≠ ((if dual then vlp16ColDual p blk f else vlp16ColSingle p blk f),
            L - 1 - (cal dsr).laser_ring) →
          (vlp16ProcessReading cfg cal L cT sT tf dual p blk f dsr az diff rd gt).1 cr
            = gt.1 cr)) := by
  constructor
  · intro cfg cal L cT sT tf bank rot j rd st hg hr
    simp only [legacyProcessReading, hg, if_true, legacyGeometry_distance, hr,
      Bool.false_eq_true, not_false_eq_true]
    refine ⟨Grid.set_same _ _ _ _, fun cr hcr => Grid.set_ne _ _ _ _ cr hcr, fun hdef => ?_⟩
    rw [Grid.set_same, hdef]
    rfl
  · intro cfg cal L cT sT tf dual p blk f dsr az diff rd gt hg hr
    simp only [vlp16ProcessReading, hg, if_true, vlp16Geometry_distance, hr,
      Bool.false_eq_true, not_false_eq_true]
    exact ⟨Grid.set_same _ _ _ _, fun cr hcr => Grid.set_ne _ _ _ _ cr hcr⟩

/-- Witness for C6: a reading at distance code 1000 (corrected distance
2) under a configured minimum range of 10 passes the full-circle angle
gate, fails the range gate, and in both paths leaves its target cell at
the default values except for the recorded ring. -/
theorem C6_range_gate_ring_only_witness :
    ((legacyProcessReading ⟨10, 100, 0, 36000⟩ (fun _ => c1Calibration) 64
        (fun _ => 1) (fun _ => 0) none 0 0 0 ⟨1000, 100⟩ ⟨0, initGrid, []⟩).grid
        (0 / 64, 64 - 1 - c1Calibration.laser_ring)
      = { initGrid (0 / 64, 64 - 1 - c1Calibration.laser_ring) with
          ring := (c1Calibration.laser_ring : Int) })
    ∧ ((vlp16ProcessReading ⟨10, 100, 0, 36000⟩ (fun _ => c1Calibration) 16
        (fun _ => 1) (fun _ => 0) none false 0 0 0 0 0 0 ⟨1000, 100⟩ (initGrid, [])).1
        (vlp16ColSingle 0 0 0, 16 - 1 - c1Calibration.laser_ring)
      = { pos := none, intensity := 0, ring := (c1Calibration.laser_ring : Int) }) := by
  constructor
  · exact (C6_range_gate_ring_only.1 ⟨10, 100, 0, 36000⟩ (fun _ => c1Calibration) 64
      (fun _ => 1) (fun _ => 0) none 0 0 0 ⟨1000, 100⟩ ⟨0, initGrid, []⟩ (by decide)
      (by norm_num [pointInRange, DISTANCE_RESOLUTION, c1Calibration])).1
  · refine (C6_range_gate_ring_only.2 ⟨10, 100, 0, 36000⟩ (fun _ => c1Calibration) 16
      (fun _ => 1) (fun _ => 0) none false 0 0 0 0 0 0 ⟨1000, 100⟩ (initGrid, []) ?_ ?_).1
    · have h : vlp16AzimuthCorrected 0 0 0 0 = 0 := by
        norm_num [vlp16AzimuthCorrected, cround, VLP16_DSR_TOFFSET, VLP16_FIRING_TOFFSET,
          VLP16_BLOCK_TDURATION]
      rw [h]; decide
    · norm_num [pointInRange, DISTANCE_RESOLUTION, c1Calibration]

theorem vlp16Blocks_ok (cfg : Config) (cal : Calibration) (L : Nat) (cT sT : Nat → ℚ)
    (tf : Option Transformer) (dual : Bool) (packet : Nat) (blocks : List RawBlock) :
    ∀ (cnt block : Nat) (st : Vlp16State),
      (∀ k, k < cnt → (blockAt blocks (block + k)).header = UPPER_BANK) →
      vlp16Blocks cfg cal L cT sT tf dual packet blocks block cnt st
        = .ok (vlp16GoodBlocks cfg cal L cT sT tf dual packet blocks block cnt st) := by
  intro cnt
  induction cnt with
  | zero => intro block st h; rfl
  | succ n ih =>
    intro block st h
    have h0 : (blockAt blocks block).header = UPPER_BANK := by
      have := h 0 (by omega); simpa using this
    rw [show vlp16Blocks cfg cal L cT sT tf dual packet blocks block (n + 1) st
        = if (blockAt blocks block).header ≠ UPPER_BANK then .error st
          else vlp16Blocks cfg cal L cT sT tf dual packet blocks (block + 1) n
            (vlp16ProcessBlockBody cfg cal L cT sT tf dual packet blocks block st)
      from rfl,
      show vlp16GoodBlocks cfg cal L cT sT tf dual packet blocks block (n + 1) st
        = vlp16GoodBlocks cfg cal L cT sT tf dual packet blocks (block + 1) n
            (vlp16ProcessBlockBody cfg cal L cT sT tf dual packet blocks block st)
      from rfl,
      if_neg (by simp [h0])]
    exact ih (block + 1) _ (fun k hk => by
      have := h (k + 1) (by omega)
      rwa [show block + (k + 1) = block + 1 + k by omega] at this)

theorem vlp16Blocks_abort (cfg : Config) (cal : Calibration) (L : Nat) (cT sT : Nat → ℚ)
    (tf : Option Transformer) (dual : Bool) (packet : Nat) (blocks : List RawBlock) :
    ∀ (j cnt block : Nat) (st : Vlp16State),
      j < cnt →
      (∀ k, k < j → (blockAt blocks (block + k)).header = UPPER_BANK) →
      (blockAt blocks (block + j)).header ≠ UPPER_BANK →
      vlp16Blocks cfg cal L cT sT tf dual packet blocks block cnt st
        = .error (vlp16GoodBlocks cfg cal L cT sT tf dual packet blocks block j st) := by
  intro j
  induction j with
  | zero =>
    intro cnt block st hj hgood hbad
    obtain ⟨m, rfl⟩ : ∃ m, cnt = m + 1 := ⟨cnt - 1, by omega⟩
    rw [show vlp16Blocks cfg cal L cT sT tf dual packet blocks block (m + 1) st
        = if (blockAt blocks block).header ≠ UPPER_BANK then .error st
          else vlp16Blocks cfg cal L cT sT tf dual packet blocks (block + 1) m
            (vlp16ProcessBlockBody cfg cal L cT sT tf dual packet blocks block st)
      from rfl,
      if_pos (by simpa using hbad)]
    rfl
  | succ j ih =>
    intro cnt block st hj hgood hbad
    obtain ⟨m, rfl⟩ : ∃ m, cnt = m + 1 := ⟨cnt - 1, by omega⟩
    have h0 : (blockAt blocks block).header = UPPER_BANK := by
      have := hgood 0 (by omega); simpa using this
    rw [show vlp16Blocks cfg cal L cT sT tf dual packet blocks block (m + 1) st
        = if (blockAt blocks block).header ≠ UPPER_BANK then .error st
          else vlp16Blocks cfg cal L cT sT tf dual packet blocks (block + 1) m
            (vlp16ProcessBlockBody cfg cal L cT sT tf dual packet blocks block st)
      from rfl,
      show vlp16GoodBlocks cfg cal L cT sT tf dual packet blocks block (j + 1) st
        = vlp16GoodBlocks cfg cal L cT sT tf dual packet blocks (block + 1) j
            (vlp16ProcessBlockBody cfg cal L cT sT tf dual packet blocks block st)
      from rfl,
      if_neg (by simp [h0])]
    exact ih m (block + 1) _ (by omega)
      (fun k hk => by
        have := hgood (k + 1) (by omega)
        rwa [show block + (k + 1) = block + 1 + k by omega] at this)
      (by rwa [show block + 1 + j = block + (j + 1) by omega])

theorem vlp16Packets_abort (cfg : Config) (cal : Calibration) (L : Nat) (cT sT : Nat → ℚ)
    (tf : Option Transformer) (p : RawPacket) (post : List RawPacket) (j : Nat)
    (hj : j < BLOCKS_PER_PACKET)
    (hgood : ∀ k, k < j → (blockAt p.blocks k).header = UPPER_BANK)
    (hbad : (blockAt p.blocks j).header ≠ UPPER_BANK) :
    ∀ (pre : List RawPacket) (pidx : Nat) (st : Vlp16State),
      (∀ q ∈ pre, ∀ i, i < BLOCKS_PER_PACKET → (blockAt q.blocks i).header = UPPER_BANK) →
      vlp16Packets cfg cal L cT sT tf pidx (pre ++ p :: post) st
        = vlp16GoodBlocks cfg cal L cT sT tf (decide (p.statusByte = 0x39))
            (pidx + pre.length) p.blocks 0 j
            (vlp16Packets cfg cal L cT sT tf pidx pre st) := by
  intro pre
  induction pre with
  | nil =>
    intro pidx st _
    rw [List.nil_append]
    rw [show vlp16Packets cfg cal L cT sT tf pidx (p :: post) st
        = (match vlp16Blocks cfg cal L cT sT tf (decide (p.statusByte = 0x39)) pidx
            p.blocks 0 BLOCKS_PER_PACKET st with
          | .error st' => st'
          | .ok st' => vlp16Packets cfg cal L cT sT tf (pidx + 1) post st')
      from rfl]
    rw [vlp16Blocks_abort cfg cal L cT sT tf _ pidx p.blocks j BLOCKS_PER_PACKET 0 st hj
      (fun k hk => by simpa using hgood k hk) (by simpa using hbad)]
    simp [vlp16Packets]
  | cons q pre ih =>
    intro pidx st hpre
    have hq : ∀ i, i < BLOCKS_PER_PACKET → (blockAt q.blocks i).header = UPPER_BANK :=
      hpre q (List.mem_cons_self q pre)
    have hrest : ∀ r ∈ pre, ∀ i, i < BLOCKS_PER_PACKET →
        (blockAt r.blocks i).header = UPPER_BANK :=
      fun r hr => hpre r (List.mem_cons_of_mem q hr)
    have hq' := vlp16Blocks_ok cfg cal L cT sT tf (decide (q.statusByte = 0x39)) pidx
      q.blocks BLOCKS_PER_PACKET 0 st (fun k hk => by simpa using hq k hk)
    have lhs_eq : vlp16Packets cfg cal L cT sT tf pidx (q :: (pre ++ p :: post)) st
        = vlp16Packets cfg cal L cT sT tf (pidx + 1) (pre ++ p :: post)
            (vlp16GoodBlocks cfg cal L cT sT tf (decide (q.statusByte = 0x39)) pidx
              q.blocks 0 BLOCKS_PER_PACKET st) := by
      show (match vlp16Blocks cfg cal L cT sT tf (decide (q.statusByte = 0x39)) pidx
          q.blocks 0 BLOCKS_PER_PACKET st with
        | .error st' => st'
        | .ok st' => vlp16Packets cfg cal L cT sT tf (pidx + 1) (pre ++ p :: post) st') = _
      rw [hq']
    have rhs_eq : vlp16Packets cfg cal L cT sT tf pidx (q :: pre) st
        = vlp16Packets cfg cal L cT sT tf (pidx + 1) pre
            (vlp16GoodBlocks cfg cal L cT sT tf (decide (q.statusByte = 0x39)) pidx
              q.blocks 0 BLOCKS_PER_PACKET st) := by
      show (match vlp16Blocks cfg cal L cT sT tf (decide (q.statusByte = 0x39)) pidx
          q.blocks 0 BLOCKS_PER_PACKET st with
        | .error st' => st'
        | .ok st' => vlp16Packets cfg cal L cT sT tf (pidx + 1) pre st') = _
      rw [hq']
    rw [List.cons_append, lhs_eq, rhs_eq, ih (pidx + 1) _ hrest]
    have harith : pidx + 1 + pre.length = pidx + (q :: pre).length := by
      simp [List.length_cons]
      omega
    rw [harith]

/-- C7: in the interleaved path, a block whose header is not the
upper-bank marker aborts the whole remainder of the scan: if every block
of the packets before packet `pre.length` and the first `j` blocks of
that packet are well-formed and block `j` is mangled, the decode returns
exactly the grid obtained by processing the prefix packets and then the
first `j` blocks of the offending packet — cells written before the bad
block keep their values, everything later keeps the default. -/
theorem C7_bad_header_aborts :
    ∀ (cfg : Config) (cal : Calibration) (L : Nat) (cT sT : Nat → ℚ)
      (tf : Option Transformer) (pre : List RawPacket) (p : RawPacket)
      (post : List RawPacket) (j : Nat),
      (∀ q ∈ pre, ∀ i, i < BLOCKS_PER_PACKET → (blockAt q.blocks i).header = UPPER_BANK) →
      j < BLOCKS_PER_PACKET →
      (∀ k, k < j → (blockAt p.blocks k).header = UPPER_BANK) →
      (blockAt p.blocks j).header ≠ UPPER_BANK →
      (vlp16Unpack cfg cal L cT sT tf (pre ++ p :: post)).grid
        = (vlp16GoodBlocks cfg cal L cT sT tf (decide (p.statusByte = 0x39))
            pre.length p.blocks 0 j
            (vlp16Packets cfg cal L cT sT tf 0 pre ⟨0, initGrid, []⟩)).grid := by
  intro cfg cal L cT sT tf pre p post j hpre hj hgood hbad
  rw [vlp16Unpack, vlp16Packets_abort cfg cal L cT sT tf p post j hj hgood hbad pre 0
    ⟨0, initGrid, []⟩ hpre, Nat.zero_add]

/-- Witness for C7: a single-packet scan whose first block is good and
whose second block has header 0 decodes to the grid obtained from the
first block alone. -/
theorem C7_bad_header_aborts_witness :
    (vlp16Unpack ⟨0, 100, 0, 36000⟩ (fun _ => c1Calibration) 16 (fun _ => 1) (fun _ => 0)
        none ([] ++ c7Packet :: [])).grid
      = (vlp16GoodBlocks ⟨0, 100, 0, 36000⟩ (fun _ => c1Calibration) 16 (fun _ => 1)
          (fun _ => 0) none (decide (c7Packet.statusByte = 0x39))
          (List.length ([] : List RawPacket)) c7Packet.blocks 0 1
          (vlp16Packets ⟨0, 100, 0, 36000⟩ (fun _ => c1Calibration) 16 (fun _ => 1)
            (fun _ => 0) none 0 [] ⟨0, initGrid, []⟩)).grid :=
  C7_bad_header_aborts ⟨0, 100, 0, 36000⟩ (fun _ => c1Calibration) 16 (fun _ => 1)
    (fun _ => 0) none [] c7Packet [] 1
    (by simp)
    (by decide)
    (fun k hk => by
      have : k = 0 := by omega
      subst this
      decide)
    (by decide)

theorem vlp16GoodBlocks_last (cfg : Config) (cal : Calibration) (L : Nat)
    (cT sT : Nat → ℚ) (tf : Option Transformer) (dual : Bool) (packet : Nat)
    (blocks : List RawBlock) :
    ∀ (cnt block : Nat) (st : Vlp16State),
      (vlp16GoodBlocks cfg cal L cT sT tf dual packet blocks block cnt st).last_azimuth_diff
        = vlp16LastSeg blocks (i_diffOf dual) block cnt st.last_azimuth_diff := by
  intro cnt
  induction cnt with
  | zero => intro block st; rfl
  | succ n ih =>
    intro block st
    rw [show vlp16GoodBlocks cfg cal L cT sT tf dual packet blocks block (n + 1) st
        = vlp16GoodBlocks cfg cal L cT sT tf dual packet blocks (block + 1) n
            (vlp16ProcessBlockBody cfg cal L cT sT tf dual packet blocks block st)
      from rfl,
      show vlp16LastSeg blocks (i_diffOf dual) block (n + 1) st.last_azimuth_diff
        = vlp16LastSeg blocks (i_diffOf dual) (block + 1) n
            (vlp16LastAfter blocks (i_diffOf dual) block st.last_azimuth_diff)
      from rfl,
      ih (block + 1) _]
    rfl

theorem vlp16LastSeg_stable (blocks : List RawBlock) (i_diff : Nat) :
    ∀ (cnt block : Nat) (last : ℚ),
      BLOCKS_PER_PACKET - i_diff ≤ block →
      vlp16LastSeg blocks i_diff block cnt last = last := by
  intro cnt
  induction cnt with
  | zero => intro block last h; rfl
  | succ n ih =>
    intro block last h
    rw [show vlp16LastSeg blocks i_diff block (n + 1) last
        = vlp16LastSeg blocks i_diff (block + 1) n
            (vlp16LastAfter blocks i_diff block last)
      from rfl,
      show vlp16LastAfter blocks i_diff block last = last from by
        unfold vlp16LastAfter
        rw [if_neg (by omega)]]
    exact ih (block + 1) last (by omega)

theorem vlp16LastSeg_closed (blocks : List RawBlock) (i_diff : Nat) :
    ∀ (cnt block : Nat) (last : ℚ),
      block < BLOCKS_PER_PACKET - i_diff →
      BLOCKS_PER_PACKET - i_diff ≤ block + cnt →
      vlp16LastSeg blocks i_diff block cnt last
        = vlp16FreshDiff blocks i_diff (BLOCKS_PER_PACKET - i_diff - 1) := by
  intro cnt
  induction cnt with
  | zero => intro block last h1 h2; omega
  | succ n ih =>
    intro block last h1 h2
    rw [show vlp16LastSeg blocks i_diff block (n + 1) last
        = vlp16LastSeg blocks i_diff (block + 1) n
            (vlp16LastAfter blocks i_diff block last)
      from rfl,
      show vlp16LastAfter blocks i_diff block last = vlp16FreshDiff blocks i_diff block
      from by
        unfold vlp16LastAfter
        rw [if_pos h1]]
    by_cases hb : block + 1 < BLOCKS_PER_PACKET - i_diff
    · exact ih (block + 1) _ hb (by omega)
    · have heq : block = BLOCKS_PER_PACKET - i_diff - 1 := by omega
      rw [vlp16LastSeg_stable blocks i_diff n (block + 1) _ (by omega), heq]

/-- C4: the index step is 2 under dual return and 1 under single return;
the cached azimuth difference of the interleaved block loop evolves
exactly as `vlp16LastSeg`; the difference used by block `i` is the fresh
`(36000 + rotation(i+s) - rotation(i)) mod 36000` exactly when the
lookahead block exists (`i < blocks_per_packet - s`) and the cached value
otherwise; after the blocks with lookahead have been processed the cache
holds the difference of the last such block; and the corrected azimuth of
beam `dsr` in firing `f` is
`round(azimuth + diff*(dsr*DSR_TOFFSET + f*FIRING_TOFFSET)/BLOCK_TDURATION) mod 36000`. -/
theorem C4_azimuth_interpolation :
    (∀ dual : Bool, i_diffOf dual = if dual then 2 else 1)
    ∧ (∀ (cfg : Config) (cal : Calibration) (L : Nat) (cT sT : Nat → ℚ)
        (tf : Option Transformer) (dual : Bool) (packet : Nat) (blocks : List RawBlock)
        (cnt block : Nat) (st : Vlp16State),
        (vlp16GoodBlocks cfg cal L cT sT tf dual packet blocks block cnt
          st).last_azimuth_diff
          = vlp16LastSeg blocks (i_diffOf dual) block cnt st.last_azimuth_diff)
    ∧ (∀ (blocks : List RawBlock) (i_diff block : Nat) (last : ℚ),
        (block < BLOCKS_PER_PACKET - i_diff →
          vlp16DiffUsed blocks i_diff block last
            = ((Int.tmod (36000 + (rotationAt blocks (block + i_diff) : Int)
                - (rotationAt blocks block : Int)) 36000 : Int) : ℚ))
        ∧ (BLOCKS_PER_PACKET - i_diff ≤ block →
          vlp16DiffUsed blocks i_diff block last = last))
    ∧ (∀ (blocks : List RawBlock) (i_diff i : Nat) (last₀ : ℚ),
        1 ≤ BLOCKS_PER_PACKET - i_diff → BLOCKS_PER_PACKET - i_diff ≤ i →
        vlp16LastSeg blocks i_diff 0 i last₀
          = vlp16FreshDiff blocks i_diff (BLOCKS_PER_PACKET - i_diff - 1))
    ∧ (∀ (az : Nat) (diff : ℚ) (f dsr : Nat),
        vlp16AzimuthCorrected az diff f dsr
          = Int.tmod (cround ((az : ℚ) + diff * ((dsr : ℚ) * VLP16_DSR_TOFFSET
              + (f : ℚ) * VLP16_FIRING_TOFFSET) / VLP16_BLOCK_TDURATION)) 36000) := by
  refine ⟨fun dual => by cases dual <;> rfl,
    vlp16GoodBlocks_last,
    fun blocks i_diff block last => ⟨fun h => ?_, fun h => ?_⟩,
    fun blocks i_diff i last₀ h1 h2 => vlp16LastSeg_closed blocks i_diff i 0 last₀
      (by omega) (by omega),
    fun az diff f dsr => rfl⟩
  · unfold vlp16DiffUsed vlp16FreshDiff
    rw [if_pos h]
  · unfold vlp16DiffUsed
    rw [if_neg (by omega)]

/-- Witness for C4: with no lookahead data (`rotationAt` defaults to 0),
block 0 under single return uses the fresh difference, block 11 reuses
the cache, and after all 12 blocks the cache holds the difference of
block 10 (the last block with a lookahead). -/
theorem C4_azimuth_interpolation_witness :
    (vlp16DiffUsed [] 1 0 7
      = ((Int.tmod (36000 + (rotationAt [] (0 + 1) : Int) - (rotationAt [] 0 : Int))
          36000 : Int) : ℚ))
    ∧ vlp16DiffUsed [] 1 11 7 = 7
    ∧ vlp16LastSeg [] 1 0 12 0 = vlp16FreshDiff [] 1 (BLOCKS_PER_PACKET - 1 - 1) :=
  ⟨(C4_azimuth_interpolation.2.2.1 [] 1 0 7).1 (by decide),
   (C4_azimuth_interpolation.2.2.1 [] 1 11 7).2 (by decide),
   C4_azimuth_interpolation.2.2.2.1 [] 1 12 0 (by decide) (by decide)⟩

/-- C8 counterexample: in the legacy path the intensity is written
before the transform is attempted, so after a transform failure the
cell's intensity is not the default 0 (here it is the raw reflectivity
100): the claim that position and intensity are both left at default is
false for the legacy path. -/
theorem C8_transform_failure_counterexample :
    ((legacyProcessReading ⟨0, 100, 0, 36000⟩ (fun _ => c8Calibration) 64
        (fun _ => 1) (fun _ => 0) (some (fun _ => none)) 0 0 0 ⟨1000, 100⟩
        ⟨0, initGrid, []⟩).grid (0, 63)).intensity ≠ 0 := by
  have hg : inAngleWindow ((0 : Nat) : Int) 0 36000 = true := by decide
  have hr : pointInRange ⟨0, 100, 0, 36000⟩ ((1000 : ℚ) * DISTANCE_RESOLUTION
      + c8Calibration.dist_correction) = true := by
    norm_num [pointInRange, DISTANCE_RESOLUTION, c8Calibration, c1Calibration]
  simp only [legacyProcessReading, hg, if_true, legacyGeometry_distance]
  norm_num [pointInRange, DISTANCE_RESOLUTION, legacyIntensity, c8Calibration,
    c1Calibration, Grid.set]

/-- C8 (amended): when the transform collaborator fails for a point, in
both paths only that point's position write is skipped and the ring
stays recorded, the counter advances and decoding continues; the
intensity, however, is left at its default only in the interleaved path —
the legacy path has already written the computed intensity before the
transform attempt, and that write remains. -/
theorem C8_transform_failure_local :
    (∀ (cfg : Config) (cal : Calibration) (L : Nat) (cT sT : Nat → ℚ)
      (f : Transformer) (bank rot j : Nat) (rd : RawReading) (st : LegacyState),
      inAngleWindow (rot : Int) cfg.min_angle cfg.max_angle = true →
      pointInRange cfg ((rd.dist : ℚ) * DISTANCE_RESOLUTION
        + (cal (j + bank)).dist_correction) = true →
      f ((legacyGeometry cT sT (cal (j + bank)) rot rd.dist).1,
         (legacyGeometry cT sT (cal (j + bank)) rot rd.dist).2.1,
         (legacyGeometry cT sT (cal (j + bank)) rot rd.dist).2.2.1) = none →
      ((legacyProcessReading cfg cal L cT sT (some f) bank rot j rd st).grid
          (st.n_points / L, L - 1 - (cal (j + bank)).laser_ring)
        = { st.grid (st.n_points / L, L - 1 - (cal (j + bank)).laser_ring) with
            ring := ((cal (j + bank)).laser_ring : Int),
            intensity := legacyIntensity (cal (j + bank)) rd.dist rd.refl })
      ∧ (∀ cr, cr ≠ (st.n_points / L, L - 1 - (cal (j + bank)).laser_ring) →
          (legacyProcessReading cfg cal L cT sT (some f) bank rot j rd st).grid cr
            = st.grid cr)
      ∧ (legacyProcessReading cfg cal L cT sT (some f) bank rot j rd st).n_points
          = st.n_points + 1)
    ∧ (∀ (cfg : Config) (cal : Calibration) (L : Nat) (cT sT : Nat → ℚ)
      (f : Transformer) (dual : Bool) (p blk fir dsr az : Nat) (diff : ℚ)
      (rd : RawReading) (gt : Grid × List (Nat × Nat)),
      inAngleWindow (vlp16AzimuthCorrected az diff fir dsr) cfg.min_angle cfg.max_angle
        = true →
      pointInRange cfg ((rd.dist : ℚ) * DISTANCE_RESOLUTION
        + (cal dsr).dist_correction) = true →
      f ((vlp16Geometry cT sT (cal dsr) (vlp16AzimuthCorrected az diff fir dsr).toNat
            rd.dist).1,
         (vlp16Geometry cT sT (cal dsr) (vlp16AzimuthCorrected az diff fir dsr).toNat
            rd.dist).2.1,
         (vlp16Geometry cT sT (cal dsr) (vlp16AzimuthCorrected az diff fir dsr).toNat
            rd.dist).2.2.1) = none →
      ((vlp16ProcessReading cfg cal L cT sT (some f) dual p blk fir dsr az diff rd gt).1
          ((if dual then vlp16ColDual p blk fir else vlp16ColSingle p blk fir),
            L - 1 - (cal dsr).laser_ring)
        = { pos := none, intensity := 0, ring := ((cal dsr).laser_ring : Int) })
      ∧ (∀ cr, cr ≠ ((if dual then vlp16ColDual p blk fir else vlp16ColSingle p blk fir),
            L - 1 - (cal dsr).laser_ring) →
          (vlp16ProcessReading cfg cal L cT sT (some f) dual p blk fir dsr az diff rd gt).1 cr
            = gt.1 cr)) := by
  constructor
  · intro cfg cal L cT sT f bank rot j rd st hg hr hf
    simp only [legacyProcessReading, hg, if_true, legacyGeometry_distance, hr, not_true,
      if_false, hf]
    refine ⟨?_, fun cr hcr => ?_, by trivial⟩
    · rw [Grid.set_same, Grid.set_same]
    · rw [Grid.set_ne _ _ _ _ cr hcr, Grid.set_ne _ _ _ _ cr hcr]
  · intro cfg cal L cT sT f dual p blk fir dsr az diff rd gt hg hr hf
    simp only [vlp16ProcessReading, hg, if_true, vlp16Geometry_distance, hr, not_true,
      if_false, hf]
    exact ⟨Grid.set_same _ _ _ _, fun cr hcr => Grid.set_ne _ _ _ _ cr hcr⟩

/-- Witness for C8: with the always-failing transformer, the legacy cell
keeps ring and computed intensity with an untouched position, and the
interleaved cell stays at the default with the ring recorded. -/
theorem C8_transform_failure_local_witness :
    ((legacyProcessReading ⟨0, 100, 0, 36000⟩ (fun _ => c8Calibration) 64
        (fun _ => 1) (fun _ => 0) (some (fun _ => none)) 0 0 0 ⟨1000, 100⟩
        ⟨0, initGrid, []⟩).grid (0 / 64, 64 - 1 - c8Calibration.laser_ring)
      = { initGrid (0 / 64, 64 - 1 - c8Calibration.laser_ring) with
          ring := (c8Calibration.laser_ring : Int),
          intensity := legacyIntensity c8Calibration 1000 100 })
    ∧ ((vlp16ProcessReading ⟨0, 100, 0, 36000⟩ (fun _ => c8Calibration) 16
        (fun _ => 1) (fun _ => 0) (some (fun _ => none)) false 0 0 0 0 0 0 ⟨1000, 100⟩
        (initGrid, [])).1 (vlp16ColSingle 0 0 0, 16 - 1 - c8Calibration.laser_ring)
      = { pos := none, intensity := 0, ring := (c8Calibration.laser_ring : Int) }) := by
  constructor
  · exact (C8_transform_failure_local.1 ⟨0, 100, 0, 36000⟩ (fun _ => c8Calibration) 64
      (fun _ => 1) (fun _ => 0) (fun _ => none) 0 0 0 ⟨1000, 100⟩ ⟨0, initGrid, []⟩
      (by decide)
      (by norm_num [pointInRange, DISTANCE_RESOLUTION, c8Calibration, c1Calibration])
      rfl).1
  · refine (C8_transform_failure_local.2 ⟨0, 100, 0, 36000⟩ (fun _ => c8Calibration) 16
      (fun _ => 1) (fun _ => 0) (fun _ => none) false 0 0 0 0 0 0 ⟨1000, 100⟩
      (initGrid, []) ?_ ?_ rfl).1
    · have h : vlp16AzimuthCorrected 0 0 0 0 = 0 := by
        norm_num [vlp16AzimuthCorrected, cround, VLP16_DSR_TOFFSET, VLP16_FIRING_TOFFSET,
          VLP16_BLOCK_TDURATION]
      rw [h]; decide
    · norm_num [pointInRange, DISTANCE_RESOLUTION, c8Calibration, c1Calibration]

theorem gatedRingsBlock_length_le (cfg : Config) (cal : Calibration) (b : RawBlock) :
    (gatedRingsBlock cfg cal b).length ≤ b.data.length := by
  by_cases h : inAngleWindow (b.rotation : Int) cfg.min_angle cfg.max_angle = true
  · simp [gatedRingsBlock, h]
  · simp [gatedRingsBlock, h]

theorem blocks_gated_length_le (cfg : Config) (cal : Calibration) :
    ∀ bs : List RawBlock,
      (∀ b ∈ bs, b.data.length = SCANS_PER_BLOCK) →
      (bs.flatMap (gatedRingsBlock cfg cal)).length ≤ bs.length * SCANS_PER_BLOCK := by
  intro bs
  induction bs with
  | nil => intro _; simp
  | cons b bs ih =>
    intro h
    have h1 := gatedRingsBlock_length_le cfg cal b
    have h2 := ih (fun x hx => h x (List.mem_cons_of_mem b hx))
    have h3 := h b (List.mem_cons_self b bs)
    simp only [List.flatMap_cons, List.length_append, List.length_cons,
      SCANS_PER_BLOCK] at *
    omega

theorem gatedRings_length_le (cfg : Config) (cal : Calibration) :
    ∀ ps : List RawPacket,
      (∀ p ∈ ps, p.blocks.length = BLOCKS_PER_PACKET
        ∧ ∀ b ∈ p.blocks, b.data.length = SCANS_PER_BLOCK) →
      (gatedRings cfg cal ps).length ≤ ps.length * SCANS_PER_PACKET := by
  intro ps
  induction ps with
  | nil => intro _; simp [gatedRings]
  | cons p ps ih =>
    intro h
    obtain ⟨hlen, hdata⟩ := h p (List.mem_cons_self p ps)
    have h1 := blocks_gated_length_le cfg cal p.blocks hdata
    rw [hlen] at h1
    have h2 := ih (fun q hq => h q (List.mem_cons_of_mem p hq))
    simp only [gatedRings, List.flatMap_cons, List.length_append, List.length_cons] at *
    simp only [SCANS_PER_PACKET, SCANS_PER_BLOCK, BLOCKS_PER_PACKET] at *
    omega

theorem gatedRings_mem_lt (cfg : Config) (cal : Calibration) (L : Nat)
    (hring : ∀ i, (cal i).laser_ring < L) :
    ∀ (ps : List RawPacket) (r : Nat), r ∈ gatedRings cfg cal ps → r < L := by
  intro ps r hr
  simp only [gatedRings, List.mem_flatMap] at hr
  obtain ⟨p, _, b, _, hr⟩ := hr
  by_cases hg : inAngleWindow (b.rotation : Int) cfg.min_angle cfg.max_angle = true
  · simp only [gatedRingsBlock, hg, if_true, List.mem_map] at hr
    obtain ⟨jr, _, rfl⟩ := hr
    exact hring _
  · simp [gatedRingsBlock, hg] at hr

theorem specTraceFrom_bounds (L N : Nat) (hL : 0 < L) (hdvd : L ∣ N) :
    ∀ (rs : List Nat) (n₀ : Nat),
      (∀ r ∈ rs, r < L) → n₀ + rs.length ≤ N →
      ∀ cr ∈ specTraceFrom L n₀ rs, cr.1 < N / L ∧ cr.2 < L := by
  intro rs
  induction rs with
  | nil => intro n₀ _ _ cr hcr; simp [specTraceFrom] at hcr
  | cons r rs ih =>
    intro n₀ hrs hlen cr hcr
    simp only [specTraceFrom, List.mem_cons] at hcr
    rcases hcr with rfl | hcr
    · refine ⟨Nat.div_lt_div_of_lt_of_dvd hdvd ?_, ?_⟩
      · simp only [List.length_cons] at hlen; omega
      · simp only []; omega
    · exact ih (n₀ + 1) (fun x hx => hrs x (List.mem_cons_of_mem r hx))
        (by simp only [List.length_cons] at hlen ⊢; omega) cr hcr

/-- C10 (amended): the interleaved path's corrected azimuth index is in
[0, 36000) whenever the azimuth difference is non-negative (as every
fresh difference is, rotation codes being in range, and as the initial
cache 0 is); the legacy path's grid writes are in bounds for its width
formula provided additionally the beam count divides the per-packet
reading count (as the supported 32- and 64-beam layouts do); and the
interleaved column/row arithmetic is in bounds for its width formula
unconditionally. -/
theorem C10_array_bounds :
    (∀ (az : Nat) (diff : ℚ) (f dsr : Nat), 0 ≤ diff →
      0 ≤ vlp16AzimuthCorrected az diff f dsr
      ∧ vlp16AzimuthCorrected az diff f dsr < 36000)
    ∧ (∀ (blocks : List RawBlock) (i_diff block : Nat),
      rotationAt blocks block < 36000 →
      0 ≤ vlp16FreshDiff blocks i_diff block
      ∧ vlp16FreshDiff blocks i_diff block < 36000)
    ∧ (∀ (cfg : Config) (cal : Calibration) (L : Nat) (cT sT : Nat → ℚ)
      (tf : Option Transformer) (packets : List RawPacket),
      0 < L → L ∣ SCANS_PER_PACKET →
      (∀ i, (cal i).laser_ring < L) →
      (∀ p ∈ packets, p.blocks.length = BLOCKS_PER_PACKET
        ∧ ∀ b ∈ p.blocks, b.data.length = SCANS_PER_BLOCK) →
      ∀ cr ∈ (legacyUnpack cfg cal L cT sT tf packets).trace,
        cr.1 < legacyWidth packets.length L ∧ cr.2 < L)
    ∧ (∀ (P p block f ring L : Nat),
      p < P → block < BLOCKS_PER_PACKET → f < VLP16_FIRINGS_PER_BLOCK → ring < L →
      0 < L →
      vlp16ColDual p block f < vlp16Width P
      ∧ vlp16ColSingle p block f < vlp16Width P
      ∧ L - 1 - ring < L) := by
  refine ⟨?_, ?_, ?_, ?_⟩
  · intro az diff f dsr hdiff
    have hdur : (0 : ℚ) < VLP16_BLOCK_TDURATION := by norm_num [VLP16_BLOCK_TDURATION]
    have ht : (0 : ℚ) ≤ (dsr : ℚ) * VLP16_DSR_TOFFSET + (f : ℚ) * VLP16_FIRING_TOFFSET := by
      have : (0 : ℚ) ≤ VLP16_DSR_TOFFSET := by norm_num [VLP16_DSR_TOFFSET]
      have : (0 : ℚ) ≤ VLP16_FIRING_TOFFSET := by norm_num [VLP16_FIRING_TOFFSET]
      positivity
    have hq : (0 : ℚ) ≤ (az : ℚ)
        + diff * ((dsr : ℚ) * VLP16_DSR_TOFFSET + (f : ℚ) * VLP16_FIRING_TOFFSET)
          / VLP16_BLOCK_TDURATION := by
      have h1 : (0 : ℚ) ≤ diff * ((dsr : ℚ) * VLP16_DSR_TOFFSET
          + (f : ℚ) * VLP16_FIRING_TOFFSET) / VLP16_BLOCK_TDURATION :=
        div_nonneg (mul_nonneg hdiff ht) (le_of_lt hdur)
      have h2 : (0 : ℚ) ≤ (az : ℚ) := Nat.cast_nonneg az
      linarith
    have hc : 0 ≤ cround ((az : ℚ)
        + diff * ((dsr : ℚ) * VLP16_DSR_TOFFSET + (f : ℚ) * VLP16_FIRING_TOFFSET)
          / VLP16_BLOCK_TDURATION) := by
      unfold cround
      rw [if_neg (not_lt.mpr hq)]
      exact Int.floor_nonneg.mpr (by linarith)
    unfold vlp16AzimuthCorrected
    rw [Int.tmod_eq_emod hc (by norm_num)]
    exact ⟨Int.emod_nonneg _ (by norm_num), Int.emod_lt_of_pos _ (by norm_num)⟩
  · intro blocks i_diff block hrot
    have h1 : (0 : Int) ≤ 36000 + (rotationAt blocks (block + i_diff) : Int)
        - (rotationAt blocks block : Int) := by
      have h2 : (0 : Int) ≤ (rotationAt blocks (block + i_diff) : Int) := Int.ofNat_nonneg _
      have h3 : (rotationAt blocks block : Int) < 36000 := by exact_mod_cast hrot
      omega
    unfold vlp16FreshDiff
    rw [Int.tmod_eq_emod h1 (by norm_num)]
    constructor
    · exact_mod_cast Int.emod_nonneg _ (by norm_num)
    · exact_mod_cast Int.emod_lt_of_pos _ (show (0 : Int) < 36000 by norm_num)
  · intro cfg cal L cT sT tf packets hL hdvd hring hwf cr hcr
    have ht := (legacy_packets_fold cfg cal L cT sT tf packets ⟨0, initGrid, []⟩).2
    rw [legacyUnpack, ht, List.nil_append] at hcr
    have hN : L ∣ packets.length * SCANS_PER_PACKET := Dvd.dvd.mul_left hdvd _
    have hlen := gatedRings_length_le cfg cal packets hwf
    exact specTraceFrom_bounds L (packets.length * SCANS_PER_PACKET) hL hN
      (gatedRings cfg cal packets) 0
      (fun r hr => gatedRings_mem_lt cfg cal L hring packets r hr)
      (by omega) cr hcr
  · intro P p block f ring L hp hb hf hr hL
    refine ⟨?_, ?_, by omega⟩
    · simp only [vlp16ColDual, vlp16Width, BLOCKS_PER_PACKET, VLP16_FIRINGS_PER_BLOCK] at *
      omega
    · simp only [vlp16ColSingle, vlp16Width, BLOCKS_PER_PACKET, VLP16_FIRINGS_PER_BLOCK] at *
      omega

/-- C10 counterexample: with 40 beams (legacy path, rings the identity
permutation of [0, 40)) and one full packet whose every reading passes
the full-circle gate, the last reading is written at column
383 / 40 = 9 while the grid width is 384 / 40 = 9: the write is out of
bounds, so the claim's bounds fail without the divisibility proviso. -/
theorem C10_array_bounds_counterexample :
    (9, 8) ∈ (legacyUnpack ⟨0, 0, 0, 36000⟩ c10Calibration 40 (fun _ => 1) (fun _ => 0)
        none c10Scan).trace
    ∧ ¬ ((9 : Nat) < legacyWidth 1 40) := by
  constructor
  · have ht := (legacy_packets_fold ⟨0, 0, 0, 36000⟩ c10Calibration 40 (fun _ => 1)
      (fun _ => 0) none c10Scan ⟨0, initGrid, []⟩).2
    rw [legacyUnpack, ht, List.nil_append]
    decide
  · decide

/-- Witness for C10: the corrected azimuth at azimuth 100 with difference
5 is a valid table index; a fresh difference on default rotations is in
range; the first cell of a full 64-beam scan is in bounds; and the
interleaved columns of (packet 1, block 11, firing 1) fit a two-packet
grid. -/
theorem C10_array_bounds_witness :
    (0 ≤ vlp16AzimuthCorrected 100 5 1 7 ∧ vlp16AzimuthCorrected 100 5 1 7 < 36000)
    ∧ (0 ≤ vlp16FreshDiff [] 1 0 ∧ vlp16FreshDiff [] 1 0 < 36000)
    ∧ (0 < legacyWidth 1 64 ∧ 63 < 64)
    ∧ (vlp16ColDual 1 11 1 < vlp16Width 2 ∧ vlp16ColSingle 1 11 1 < vlp16Width 2
      ∧ 16 - 1 - 3 < 16) := by
  refine ⟨?_, ?_, ?_, ?_⟩
  · exact C10_array_bounds.1 100 5 1 7 (by norm_num)
  · exact C10_array_bounds.2.1 [] 1 0 (by decide)
  · have ht := (legacy_packets_fold ⟨0, 0, 0, 36000⟩ c10Calibration 64 (fun _ => 1)
      (fun _ => 0) none c10Scan ⟨0, initGrid, []⟩).2
    have hmem : (0, 63) ∈ (legacyUnpack ⟨0, 0, 0, 36000⟩ c10Calibration 64 (fun _ => 1)
        (fun _ => 0) none c10Scan).trace := by
      rw [legacyUnpack, ht, List.nil_append]
      decide
    exact C10_array_bounds.2.2.1 ⟨0, 0, 0, 36000⟩ c10Calibration 64 (fun _ => 1)
      (fun _ => 0) none c10Scan (by norm_num) (by decide)
      (fun i => by
        have h := Nat.mod_lt i (show 0 < 40 by norm_num)
        simp only [c10Calibration]
        omega)
      (by decide) (0, 63) hmem
  · exact C10_array_bounds.2.2.2 2 1 11 1 3 16 (by norm_num) (by decide) (by decide)
      (by norm_num) (by norm_num)

/-- C9 counterexample: with no calibration parameter specified and a
loader that initializes successfully on the fallback file, `setup`
substitutes the default calibration file and returns success — it does
not fail. -/
theorem C9_setup_counterexample :
    setup none (fun _ => true) = (0, defaultCalibrationFile) := rfl

/-- C9 (amended): `setup` returns -1 exactly when reading the chosen
calibration file fails to initialize; when no calibration parameter is
given it substitutes the default file (and succeeds whenever that file
reads); the beam count never enters setup and only selects the decode
path inside `unpack`. -/
theorem C9_setup_behaviour :
    (∀ (p : Option String) (r : String → Bool),
      (setup p r).1 = -1 ↔ r (setup p r).2 = false)
    ∧ (∀ r : String → Bool, (setup none r).2 = defaultCalibrationFile)
    ∧ (∀ (f : String) (r : String → Bool), (setup (some f) r).2 = f)
    ∧ (∀ num_lasers : Nat, unpackSelectsVlp16 num_lasers = decide (num_lasers = 16)) := by
  refine ⟨?_, fun r => ?_, fun f r => ?_, fun n => ?_⟩
  · intro p r
    cases p with
    | none => by_cases h : r defaultCalibrationFile <;> simp [setup, h]
    | some f => by_cases h : r f <;> simp [setup, h]
  · by_cases h : r defaultCalibrationFile <;> simp [setup, h]
  · by_cases h : r f <;> simp [setup, h]
  · rfl

end Velodyne
